import Mathlib

/-
Verification development for the alicia_server dedicated game server.

The C++ sources are shallowly embedded: machine integers become `Nat` with
explicit `% 2^w` truncation where the C++ computes in `uint16_t`/`uint32_t`,
fallible handlers become `Except`/`Option`, the wall clock and the random
device become explicit oracle parameters, and the container state of each
subsystem becomes explicit record state.
-/

namespace AliciaSpec

/-! ## A bounded checker with shallow kernel recursion

`checkRange f fuel lo size` verifies the Bool predicate `f` on every point of
the interval `[lo, lo + size)` by binary splitting, so that kernel reduction
recurses only to logarithmic depth. -/

def checkRange (f : Nat → Bool) : Nat → Nat → Nat → Bool
  | 0, _, _ => false
  | fuel + 1, lo, size =>
    if size = 0 then true
    else if size = 1 then f lo
    else
      checkRange f fuel lo (size / 2) &&
      checkRange f fuel (lo + size / 2) (size - size / 2)

theorem checkRange_sound (f : Nat → Bool) :
    ∀ fuel lo size, checkRange f fuel lo size = true → ∀ i, i < size → f (lo + i) = true := by
  intro fuel
  induction fuel with
  | zero =>
    intro lo size h
    simp [checkRange] at h
  | succ n ih =>
    intro lo size h i hi
    simp only [checkRange] at h
    by_cases h0 : size = 0
    · omega
    · by_cases h1 : size = 1
      · have hi0 : i = 0 := by omega
        subst hi0
        rw [if_neg h0, if_pos h1] at h
        simpa using h
      · rw [if_neg h0, if_neg h1, Bool.and_eq_true] at h
        by_cases hlt : i < size / 2
        · exact ih lo (size / 2) h.1 i hlt
        · have hrec := ih (lo + size / 2) (size - size / 2) h.2 (i - size / 2) (by omega)
          have heq : lo + size / 2 + (i - size / 2) = lo + i := by omega
          rwa [heq] at hrec

/-! ## Frame codec (§4.1; `encode_message_information`, `decode_message_length`,
`decode_message_information`)

The encoder appears identically in two source files (default buffer size
4092 = 0xFFC).  All intermediate values are computed in `uint32_t`, the
`magic` constant in `uint16_t`; the truncations are written out explicitly. -/

/-- The low 16 bits (`magic`) of the encoded message information, exactly as
computed by the C++ `encode_message_information` before the message id is
mixed into the high half. -/
def encMagic (message_data_length buffer_size : Nat) : Nat :=
  let length0 := ((buffer_size <<< 16) ||| message_data_length) % 4294967296
  let length1 := ((length0 &&& 16383) ||| ((length0 <<< 14) % 4294967296)) % 4294967296
  ((((length1 &&& 15) ||| 65408) <<< 8) ||| ((length0 >>> 4) &&& 255) ||| (length1 &&& 61440)) % 65536

/-- C++ `encode_message_information(message_id, message_jumbo,
message_data_length, buffer_size = 4092)`: builds the 32-bit header
`(magic ^ (jumbo | id)) << 16 | magic`. -/
def encode_message_information (message_id message_jumbo message_data_length : Nat)
    (buffer_size : Nat := 4092) : Nat :=
  let magic := encMagic message_data_length buffer_size
  let mid := ((message_jumbo &&& 65535) ||| (message_id &&& 65535)) % 65536
  (magic ||| (((magic ^^^ mid) <<< 16) % 4294967296)) % 4294967296

/-- C++ `decode_message_length` (file with `test_magic`, mask `16383`):
recovers the message length from the 32-bit header; returns the header
unchanged when bit 15 is clear. -/
def decode_message_length (data : Nat) : Nat :=
  if data &&& 32768 ≠ 0 then
    let sec := data &&& 16383
    (((data &&& 255) <<< 4) ||| ((sec >>> 8) &&& 15) ||| (sec &&& 61440)) % 4294967296
  else data

/-- C++ `decode_message_information` (second codec file, mask `0x3FF`):
recovers `(message_id, message_data_length)`, or fails when bit 15 of the
header is clear.  The id is recovered as `~(xor & 0xC000) & xor` over the
XOR of the two 16-bit halves, computed in 32-bit `int` and truncated to
`uint16_t`. -/
def decode_message_information (data : Nat) : Option (Nat × Nat) :=
  if data &&& 32768 ≠ 0 then
    let sec := data &&& 1023
    let len := (((data &&& 255) <<< 4) ||| ((sec >>> 8) &&& 15) ||| (sec &&& 61440)) % 65536
    let firstTwoBytes := data % 65536
    let secondTwoBytes := (data >>> 16) % 65536
    let xorResult := firstTwoBytes ^^^ secondTwoBytes
    let messageId := ((4294967295 - (xorResult &&& 49152)) &&& xorResult) % 65536
    some (messageId, len)
  else none

/-! ### Bitwise helper lemmas -/

theorem land_mask_mod (x : Nat) : x &&& 65535 = x % 65536 := by
  have h := Nat.and_pow_two_sub_one_eq_mod x 16
  norm_num at h
  exact h

theorem land_low (x m : Nat) (hm : m < 65536) : x &&& m = x % 65536 &&& m := by
  have h1 : m &&& 65535 = m := by
    rw [land_mask_mod]
    exact Nat.mod_eq_of_lt hm
  calc x &&& m = x &&& (m &&& 65535) := by rw [h1]
    _ = x &&& (65535 &&& m) := by rw [Nat.and_comm m 65535]
    _ = x &&& 65535 &&& m := by rw [Nat.and_assoc]
    _ = x % 65536 &&& m := by rw [land_mask_mod]

theorem lor_split (k a b c d : Nat) (hb : b < 2 ^ k) (hd : d < 2 ^ k) :
    (2 ^ k * a + b) ||| (2 ^ k * c + d) = 2 ^ k * (a ||| c) + (b ||| d) := by
  have hbd : b ||| d < 2 ^ k := Nat.or_lt_two_pow hb hd
  apply Nat.eq_of_testBit_eq
  intro j
  rw [Nat.testBit_or, Nat.testBit_mul_pow_two_add a hb j, Nat.testBit_mul_pow_two_add c hd j,
    Nat.testBit_mul_pow_two_add (a ||| c) hbd j]
  by_cases hj : j < k
  · simp [hj, Nat.testBit_or]
  · simp [hj, Nat.testBit_or]

theorem lor_high_low (h m : Nat) (hm : m < 65536) : m ||| 65536 * h = 65536 * h + m := by
  have h0 : (65536 : Nat) = 2 ^ 16 := by norm_num
  calc m ||| 65536 * h = (2 ^ 16 * 0 + m) ||| (2 ^ 16 * h + 0) := by
        rw [Nat.mul_zero, Nat.zero_add, Nat.add_zero, h0]
    _ = 2 ^ 16 * (0 ||| h) + (m ||| 0) := lor_split 16 0 m h 0 (h0 ▸ hm) (by positivity)
    _ = 65536 * h + m := by rw [Nat.zero_or, Nat.or_zero, h0]

/-- Decoding only looks at the low 16 bits of the header (given bit 15 set). -/
theorem decode_message_length_drop_high (h m : Nat) (hm : m < 65536)
    (hbit : m &&& 32768 = 32768) :
    decode_message_length (65536 * h + m) = decode_message_length m := by
  have hmod : (65536 * h + m) % 65536 = m := by omega
  have hc : ∀ c, c < 65536 → (65536 * h + m) &&& c = m &&& c := by
    intro c hclt
    rw [land_low (65536 * h + m) c hclt, hmod]
  unfold decode_message_length
  rw [hc 32768 (by norm_num), hc 255 (by norm_num), hc 16383 (by norm_num), hbit]
  norm_num

/-- The id recovered by `decode_message_information` from a header whose low
half is `m` and high half is `h` is computed from `m ^^^ h`. -/
theorem decode_message_information_eq (h m : Nat) (hm : m < 65536) (hh : h < 65536)
    (hbit : m &&& 32768 = 32768) :
    decode_message_information (65536 * h + m) =
      some (((4294967295 - ((m ^^^ h) &&& 49152)) &&& (m ^^^ h)) % 65536,
        (((m &&& 255) <<< 4) ||| (((m &&& 1023) >>> 8) &&& 15) ||| ((m &&& 1023) &&& 61440)) % 65536) := by
  have hmod : (65536 * h + m) % 65536 = m := by omega
  have hdiv : (65536 * h + m) >>> 16 = h := by
    rw [Nat.shiftRight_eq_div_pow]
    norm_num
    omega
  have hc : ∀ c, c < 65536 → (65536 * h + m) &&& c = m &&& c := by
    intro c hclt
    rw [land_low (65536 * h + m) c hclt, hmod]
  unfold decode_message_information
  rw [hc 32768 (by norm_num), hc 255 (by norm_num), hc 1023 (by norm_num), hbit, hmod, hdiv,
    Nat.mod_eq_of_lt hh]
  simp

/-! ### Bounded facts about the magic and the id recovery -/

/-- Per-length check: the magic round-trips through `decode_message_length`,
fits in 16 bits and has bit 15 set. -/
def magicLenOk (len : Nat) : Bool :=
  decide (decode_message_length (encMagic len 4092) = len) &&
  decide (encMagic len 4092 < 65536) &&
  decide (encMagic len 4092 &&& 32768 = 32768)

set_option maxHeartbeats 8000000 in
theorem magicLen_check : checkRange magicLenOk 20 0 16384 = true := by decide

/-- Per-id check: `~(id & 0xC000) & id` (32-bit complement, 16-bit store)
recovers every id below `2^14`. -/
def idRecoverOk (id : Nat) : Bool :=
  decide (((4294967295 - (id &&& 49152)) &&& id) % 65536 = id)

set_option maxHeartbeats 8000000 in
theorem idRecover_check : checkRange idRecoverOk 20 0 16384 = true := by decide

theorem encMagic_ok (len : Nat) (h : len < 16384) :
    decode_message_length (encMagic len 4092) = len ∧
    encMagic len 4092 < 65536 ∧ encMagic len 4092 &&& 32768 = 32768 := by
  have hch := checkRange_sound magicLenOk 20 0 16384 magicLen_check len h
  rw [Nat.zero_add] at hch
  simp only [magicLenOk, Bool.and_eq_true, decide_eq_true_eq] at hch
  exact ⟨hch.1.1, hch.1.2, hch.2⟩

theorem idRecover_ok (id : Nat) (h : id < 16384) :
    ((4294967295 - (id &&& 49152)) &&& id) % 65536 = id := by
  have hch := checkRange_sound idRecoverOk 20 0 16384 idRecover_check id h
  rw [Nat.zero_add] at hch
  simpa only [idRecoverOk, decide_eq_true_eq] using hch

theorem encMagic_lt (len bs : Nat) : encMagic len bs < 65536 := by
  unfold encMagic
  exact Nat.mod_lt _ (by norm_num)

/-- Closed form of the encoder for jumbo 0: low half `magic`, high half
`magic ^^^ id`. -/
theorem encode_eq (id len bs : Nat) (hid : id < 65536) :
    encode_message_information id 0 len bs =
      65536 * (encMagic len bs ^^^ id) + encMagic len bs := by
  have hm : encMagic len bs < 65536 := encMagic_lt len bs
  have h16 : (65536 : Nat) = 2 ^ 16 := by norm_num
  have hx : encMagic len bs ^^^ id < 65536 := by
    rw [h16]
    exact Nat.xor_lt_two_pow (h16 ▸ hm) (h16 ▸ hid)
  unfold encode_message_information
  have hmid : ((0 &&& 65535) ||| (id &&& 65535)) % 65536 = id := by
    rw [Nat.zero_and, Nat.zero_or, land_mask_mod]
    omega
  rw [hmid]
  show (encMagic len bs ||| (encMagic len bs ^^^ id) <<< 16 % 4294967296) % 4294967296 =
    65536 * (encMagic len bs ^^^ id) + encMagic len bs
  rw [Nat.shiftLeft_eq]
  have h1 : (encMagic len bs ^^^ id) * 2 ^ 16 % 4294967296 = 65536 * (encMagic len bs ^^^ id) := by
    have : (encMagic len bs ^^^ id) * 2 ^ 16 = 65536 * (encMagic len bs ^^^ id) := by ring
    rw [this]
    omega
  rw [h1, lor_high_low (encMagic len bs ^^^ id) (encMagic len bs) hm]
  omega

/-- C1: the spec claims `decode(encode(id, len)) = (id, len)` for all
`len ≤ 0x7FFF` and `encode(29, 7, 16384) = 0x8D06CD01`.  Both fail on the
code: the header keeps only 14 bits of the length (16384 decodes back to 0),
and `encode(29, 7, 16384)` is `0x801F8000`, contradicting the code's own
`test_magic` assertion. -/
theorem C1_counterexample :
    decode_message_length (encode_message_information 29 0 16384) ≠ 16384 ∧
    encode_message_information 29 7 16384 ≠ 2366033153 := by decide

/-- C1 (amended): for every message id below `2^14` and payload length below
`2^14`, decoding the header produced by `encode_message_information id 0 len`
recovers the length (via `decode_message_length`) and the id (via
`decode_message_information`); and `encode(29,7,16384) = 0x801F8000`, while
the test's expected `0x8D06CD01` is produced with the id and length
arguments exchanged, as `encode(7, 16384, 29)`. -/
theorem C1_roundtrip (id len : Nat) (hid : id < 16384) (hlen : len < 16384) :
    decode_message_length (encode_message_information id 0 len) = len ∧
    (decode_message_information (encode_message_information id 0 len)).map Prod.fst = some id ∧
    encode_message_information 29 7 16384 = 2149548032 ∧
    encode_message_information 7 16384 29 = 2366033153 := by
  obtain ⟨hdec, hmlt, hbit⟩ := encMagic_ok len hlen
  have hid16 : id < 65536 := by omega
  have h16 : (65536 : Nat) = 2 ^ 16 := by norm_num
  have hx : encMagic len 4092 ^^^ id < 65536 := by
    rw [h16]
    exact Nat.xor_lt_two_pow (h16 ▸ hmlt) (h16 ▸ hid16)
  have henc := encode_eq id len 4092 hid16
  refine ⟨?_, ?_, by decide, by decide⟩
  · rw [henc, decode_message_length_drop_high _ _ hmlt hbit, hdec]
  · rw [henc, decode_message_information_eq _ _ hmlt hx hbit, Nat.xor_cancel_left]
    simp only [Option.map_some']
    rw [idRecover_ok id hid]

/-- Witness: C1_roundtrip applied at id 29, len 29. -/
theorem C1_roundtrip_witness :
    decode_message_length (encode_message_information 29 0 29) = 29 :=
  (C1_roundtrip 29 29 (by norm_num) (by norm_num)).1



/-! ## Room system (`Room` in the RoomSystem source)

`_queuedPlayers` is a `std::unordered_set<data::Uid>` and `_players` a
`std::unordered_map<data::Uid, Player>`; both are embedded as lists whose
no-duplicate property is the container representation invariant.  The random
team tie-break (`std::rand() % 2`) is an explicit Bool parameter. -/

inductive PlayerTeam
  | Solo
  | Red
  | Blue
deriving DecidableEq, Repr

inductive RoomGameMode
  | Speed
  | Magic
  | Guild
  | Tutorial
deriving DecidableEq, Repr

/-- Underlying C++ enum value: `Speed = 1, Magic = 2, Guild, Tutorial = 6`. -/
def RoomGameMode.val : RoomGameMode → Nat
  | .Speed => 1
  | .Magic => 2
  | .Guild => 3
  | .Tutorial => 6

inductive RoomTeamMode
  | Solo
  | Team
deriving DecidableEq, Repr

/-- Underlying C++ enum value: `Solo = 1, Team = 2`. -/
def RoomTeamMode.val : RoomTeamMode → Nat
  | .Solo => 1
  | .Team => 2

structure RoomDetails where
  name : String := ""
  password : String := ""
  missionId : Nat := 0
  courseId : Nat := 0
  maxPlayerCount : Nat := 0
  gameMode : RoomGameMode := .Speed
  teamMode : RoomTeamMode := .Solo
deriving DecidableEq, Repr

structure Room where
  uid : Nat
  details : RoomDetails
  queuedPlayers : List Nat := []
  players : List (Nat × PlayerTeam) := []
  roomIsPlaying : Bool := false
deriving DecidableEq, Repr

/-- The key set of the `_players` map. -/
def Room.playerUids (r : Room) : List Nat :=
  r.players.map Prod.fst

/-- C++ `Room::IsRoomFull`. -/
def Room.IsRoomFull (r : Room) : Bool :=
  r.players.length + r.queuedPlayers.length ≥ r.details.maxPlayerCount

/-- C++ `Room::QueuePlayer`: refuses when the room is full, otherwise inserts
the uid into the queued set. -/
def Room.QueuePlayer (r : Room) (characterUid : Nat) : Bool × Room :=
  if r.IsRoomFull then (false, r)
  else
    (true,
      { r with
        queuedPlayers :=
          if characterUid ∈ r.queuedPlayers then r.queuedPlayers
          else characterUid :: r.queuedPlayers })

/-- C++ `Room::DequeuePlayer`: erases the uid from the queued set, reporting
whether anything was erased. -/
def Room.DequeuePlayer (r : Room) (characterUid : Nat) : Bool × Room :=
  (characterUid ∈ r.queuedPlayers,
    { r with queuedPlayers := r.queuedPlayers.erase characterUid })

/-- C++ `Room::AddPlayer`: refuses when the committed players alone reach
`maxPlayerCount`; otherwise picks the team (balancing populations in team
mode, the tie broken by `std::rand() % 2`), erases the uid from the queued
set and `try_emplace`s it into the players map, all in the same call. -/
def Room.AddPlayer (r : Room) (characterUid : Nat) (rand : Bool) : Bool × Room :=
  if r.players.length ≥ r.details.maxPlayerCount then (false, r)
  else
    let team :=
      match r.details.teamMode with
      | .Team =>
        let redTeamCount := (r.players.filter (fun p => p.2 = PlayerTeam.Red)).length
        let blueTeamCount := (r.players.filter (fun p => p.2 = PlayerTeam.Blue)).length
        if redTeamCount > blueTeamCount then PlayerTeam.Blue
        else if blueTeamCount > redTeamCount then PlayerTeam.Red
        else if rand then PlayerTeam.Red else PlayerTeam.Blue
      | .Solo => PlayerTeam.Solo
    (true,
      { r with
        queuedPlayers := r.queuedPlayers.erase characterUid
        players :=
          if characterUid ∈ r.playerUids then r.players
          else (characterUid, team) :: r.players })

/-- C++ `Room::RemovePlayer`. -/
def Room.RemovePlayer (r : Room) (characterUid : Nat) : Room :=
  { r with players := r.players.filter (fun p => p.1 ≠ characterUid) }

/-- One call of the room player-membership interface. -/
inductive RoomOp
  | queue (uid : Nat)
  | dequeue (uid : Nat)
  | add (uid : Nat) (rand : Bool)
  | remove (uid : Nat)
deriving DecidableEq, Repr

def Room.applyOp (r : Room) : RoomOp → Room
  | .queue uid => (r.QueuePlayer uid).2
  | .dequeue uid => (r.DequeuePlayer uid).2
  | .add uid rand => (r.AddPlayer uid rand).2
  | .remove uid => r.RemovePlayer uid

def Room.runOps (r : Room) (ops : List RoomOp) : Room :=
  ops.foldl Room.applyOp r

/-- Container representation invariant together with the claimed room
invariants: the combined population bound and queued/committed exclusivity. -/
def RoomInv (r : Room) : Prop :=
  r.players.length + r.queuedPlayers.length ≤ r.details.maxPlayerCount ∧
  r.queuedPlayers.Nodup ∧
  r.playerUids.Nodup ∧
  ∀ u ∈ r.queuedPlayers, u ∉ r.playerUids

instance (r : Room) : Decidable (RoomInv r) := by
  unfold RoomInv
  exact inferInstance

/-- The admission-path discipline on a single call: `AddPlayer` only on a uid
that is currently queued, `QueuePlayer` only on a uid not currently
committed. -/
def Room.opGuard (r : Room) : RoomOp → Bool
  | .queue uid => decide (uid ∉ r.playerUids)
  | .add uid _ => decide (uid ∈ r.queuedPlayers)
  | _ => true

def Room.opsOk (r : Room) : List RoomOp → Bool
  | [] => true
  | op :: rest => r.opGuard op && Room.opsOk (r.applyOp op) rest

theorem roomStep_inv (r : Room) (op : RoomOp) (h : RoomInv r)
    (hok : r.opGuard op = true) : RoomInv (r.applyOp op) := by
  obtain ⟨hlen, hqnd, hpnd, hdisj⟩ := h
  cases op with
  | queue uid =>
    have hguard : uid ∉ r.playerUids := by
      simpa [Room.opGuard] using hok
    simp only [Room.applyOp, Room.QueuePlayer]
    by_cases hfull : r.IsRoomFull
    · simp only [hfull, if_true]
      exact ⟨hlen, hqnd, hpnd, hdisj⟩
    · simp only [hfull, Bool.false_eq_true, if_false]
      by_cases hmem : uid ∈ r.queuedPlayers
      · simp only [hmem, if_true]
        exact ⟨hlen, hqnd, hpnd, hdisj⟩
      · have hnotfull : r.players.length + r.queuedPlayers.length < r.details.maxPlayerCount := by
          simp only [Room.IsRoomFull, ge_iff_le, decide_eq_true_eq] at hfull
          omega
        refine ⟨?_, ?_, hpnd, ?_⟩
        · simp only [hmem, if_false, List.length_cons]
          omega
        · simp only [hmem, if_false]
          exact List.nodup_cons.mpr ⟨hmem, hqnd⟩
        · intro u hu
          simp only [hmem, if_false, List.mem_cons] at hu
          rcases hu with rfl | hu
          · exact hguard
          · exact hdisj u hu
  | dequeue uid =>
    simp only [Room.applyOp, Room.DequeuePlayer]
    refine ⟨?_, hqnd.erase uid, hpnd, ?_⟩
    · show r.players.length + (r.queuedPlayers.erase uid).length ≤ r.details.maxPlayerCount
      have hle : (r.queuedPlayers.erase uid).length ≤ r.queuedPlayers.length :=
        (r.queuedPlayers.erase_sublist uid).length_le
      omega
    · intro u hu
      exact hdisj u (List.mem_of_mem_erase hu)
  | add uid rand =>
    have huid : uid ∈ r.queuedPlayers := by
      simpa [Room.opGuard] using hok
    have hnotkey : uid ∉ r.playerUids := hdisj uid huid
    simp only [Room.applyOp, Room.AddPlayer]
    by_cases hcap : r.players.length ≥ r.details.maxPlayerCount
    · simp only [ge_iff_le, hcap, if_true]
      exact ⟨hlen, hqnd, hpnd, hdisj⟩
    · have herase : (r.queuedPlayers.erase uid).length = r.queuedPlayers.length - 1 :=
        List.length_erase_of_mem huid
      have hqpos : 1 ≤ r.queuedPlayers.length := List.length_pos_of_mem huid
      simp only [ge_iff_le, hcap, if_false, hnotkey]
      refine ⟨?_, hqnd.erase uid, ?_, ?_⟩
      · show (_ :: r.players).length + (r.queuedPlayers.erase uid).length ≤
          r.details.maxPlayerCount
        simp only [List.length_cons, herase]
        omega
      · show (((uid, _) :: r.players).map Prod.fst).Nodup
        simp only [List.map_cons]
        exact List.nodup_cons.mpr ⟨hnotkey, hpnd⟩
      · intro u hu
        have hu2 : u ≠ uid ∧ u ∈ r.queuedPlayers := (hqnd.mem_erase_iff).mp hu
        show u ∉ ((uid, _) :: r.players).map Prod.fst
        simp only [List.map_cons, List.mem_cons]
        rintro (rfl | hmem)
        · exact hu2.1 rfl
        · exact hdisj u hu2.2 hmem
  | remove uid =>
    simp only [Room.applyOp, Room.RemovePlayer]
    have hsub : (r.players.filter (fun p => p.1 ≠ uid)).Sublist r.players :=
      List.filter_sublist r.players
    refine ⟨?_, hqnd, ?_, ?_⟩
    · show (r.players.filter (fun p => p.1 ≠ uid)).length + r.queuedPlayers.length ≤
        r.details.maxPlayerCount
      have := hsub.length_le
      omega
    · exact ((hsub.map Prod.fst).nodup hpnd : _)
    · intro u hu hmem
      exact hdisj u hu (((hsub.map Prod.fst).subset) hmem)

theorem roomRun_inv (ops : List RoomOp) :
    ∀ r : Room, RoomInv r → r.opsOk ops = true → RoomInv (r.runOps ops) := by
  induction ops with
  | nil => intro r h _; exact h
  | cons op rest ih =>
    intro r h hok
    simp only [Room.opsOk, Bool.and_eq_true] at hok
    exact ih (r.applyOp op) (roomStep_inv r op h hok.1) hok.2

/-- Concrete room used to exercise the invariant claims. -/
def roomC3 : Room :=
  { uid := 1, details := { maxPlayerCount := 2 } }

def roomC3bad : Room :=
  roomC3.runOps [RoomOp.queue 1, RoomOp.queue 2, RoomOp.add 3 false]

/-- C3 counterexample: with `max_player_count = 2`, queueing uids 1 and 2 and
then `AddPlayer(3)` (a uid that was never queued) yields
`|players| + |queued_players| = 3 > 2`, because `AddPlayer` checks only the
committed population.  The claim quantifies over every call sequence, so it
fails. -/
theorem C3_counterexample :
    ¬ (roomC3bad.players.length + roomC3bad.queuedPlayers.length ≤
        roomC3bad.details.maxPlayerCount) := by decide

/-- C3 (amended): along every call sequence that follows the admission path —
`AddPlayer` only on a currently queued uid and `QueuePlayer` only on a uid
not currently committed — a room satisfying the invariants keeps
`|players| + |queued_players| ≤ max_player_count`, and no uid is ever both
queued and committed (`AddPlayer` removes the uid from the queue in the same
step it commits it). -/
theorem C3_room_invariants (r : Room) (ops : List RoomOp) (h : RoomInv r)
    (hok : r.opsOk ops = true) :
    (r.runOps ops).players.length + (r.runOps ops).queuedPlayers.length ≤
      (r.runOps ops).details.maxPlayerCount ∧
    ∀ u ∈ (r.runOps ops).queuedPlayers, u ∉ (r.runOps ops).playerUids := by
  obtain ⟨h1, _, _, h4⟩ := roomRun_inv ops r h hok
  exact ⟨h1, h4⟩

/-- Witness: the amended C3 theorem applied to the queue-then-add admission
of uid 1 into a two-player room. -/
theorem C3_room_invariants_witness :
    (roomC3.runOps [RoomOp.queue 1, RoomOp.add 1 false]).players.length +
      (roomC3.runOps [RoomOp.queue 1, RoomOp.add 1 false]).queuedPlayers.length ≤
      (roomC3.runOps [RoomOp.queue 1, RoomOp.add 1 false]).details.maxPlayerCount :=
  (C3_room_invariants roomC3 [RoomOp.queue 1, RoomOp.add 1 false]
    (by decide) (by decide)).1




/-! ## Lobby login (`LobbyNetworkHandler::HandleLogin`, `LobbyDirector::Tick`)

The record cache (`DataDirector`), the infraction collaborator and the
scheduler are out-of-scope collaborators (§6); they are embedded as oracle
functions.  Client ids are `Nat`. -/

/-- `AcCmdCLLoginCancel::Reason`. -/
inductive LoginCancelReason
  | Generic
  | InvalidUser
  | Duplicated
  | InvalidVersion
  | InvalidEquipment
  | InvalidLoginId
  | DisconnectYourself
deriving DecidableEq, Repr

/-- Underlying C++ enum value (`Generic = 0 … DisconnectYourself = 6`). -/
def LoginCancelReason.val : LoginCancelReason → Nat
  | .Generic => 0
  | .InvalidUser => 1
  | .Duplicated => 2
  | .InvalidVersion => 3
  | .InvalidEquipment => 4
  | .InvalidLoginId => 5
  | .DisconnectYourself => 6

/-- Serverbound `AcCmdCLLogin`. -/
structure AcCmdCLLogin where
  constant0 : Nat
  constant1 : Nat
  loginId : String
  memberNo : Nat
  authKey : String
deriving DecidableEq, Repr

/-- Per-client lobby session context (the fields `HandleLogin` reads). -/
structure LobbyClientContext where
  userName : String := ""
  isAuthenticated : Bool := false
deriving DecidableEq, Repr

/-- Result of `LobbyNetworkHandler::HandleLogin`: either an immediate
login-cancel reply, or the login is scheduled into the director's request
queue (`QueueClientLogin(clientId, userName, userToken)`). -/
inductive HandleLoginResult
  | cancel (reason : LoginCancelReason)
  | queued (userName userToken : String)
deriving DecidableEq, Repr

/-- C++ `LobbyNetworkHandler::HandleLogin`.  The version constants are only
`assert`ed (`command.constant0 == 50 && command.constant1 == 281`), which is
compiled out of release builds and aborts the whole process in debug builds;
the handler body performs no version check.  Empty `loginId`/`authKey` are
rejected with `InvalidLoginId`; a login id equal to the user name of an
already-authenticated connected client is rejected with `Duplicated`;
otherwise the login is queued to the director. -/
def handleLogin (clients : List LobbyClientContext) (command : AcCmdCLLogin) :
    HandleLoginResult :=
  if command.loginId = "" ∨ command.authKey = "" then
    .cancel .InvalidLoginId
  else if clients.any (fun ctx => ctx.userName = command.loginId && ctx.isAuthenticated) then
    .cancel .Duplicated
  else
    .queued command.loginId command.authKey

/-- The C9 failing input: version constants (49, 281) instead of (50, 281). -/
def loginBadVersion : AcCmdCLLogin :=
  { constant0 := 49, constant1 := 281, loginId := "alice", memberNo := 0, authKey := "T" }

/-- C9: the spec requires version-mismatched logins to be rejected with
login-cancel(InvalidVersion), but the handler never produces that reason:
the mismatched-version login `loginBadVersion` is queued normally, and no
input at all yields an `InvalidVersion` cancel. -/
theorem C9_version_check_missing :
    handleLogin [] loginBadVersion = .queued "alice" "T" ∧
    ∀ (clients : List LobbyClientContext) (command : AcCmdCLLogin),
      handleLogin clients command ≠ .cancel .InvalidVersion := by
  constructor
  · decide
  · intro clients command
    unfold handleLogin
    split
    · simp
    · split
      · simp
      · simp

/-- C10: `HandleLogin` settles some logins before any queueing: an empty
`loginId` or `authKey` is immediately rejected with InvalidLoginId, and a
`loginId` equal to the user name of an already-authenticated connected
client is immediately rejected with Duplicated; in both cases the client is
never queued. -/
theorem C10_handleLogin_prequeue (clients : List LobbyClientContext)
    (command : AcCmdCLLogin) :
    (command.loginId = "" ∨ command.authKey = "" →
      handleLogin clients command = .cancel .InvalidLoginId) ∧
    (command.loginId ≠ "" → command.authKey ≠ "" →
      (∃ ctx ∈ clients, ctx.userName = command.loginId ∧ ctx.isAuthenticated = true) →
      handleLogin clients command = .cancel .Duplicated) ∧
    (∀ reason, handleLogin clients command = .cancel reason →
      ∀ name token, handleLogin clients command ≠ .queued name token) := by
  refine ⟨?_, ?_, ?_⟩
  · intro h
    unfold handleLogin
    rw [if_pos h]
  · intro h1 h2 ⟨ctx, hmem, hname, hauth⟩
    unfold handleLogin
    rw [if_neg (by tauto)]
    rw [if_pos]
    exact List.any_eq_true.mpr ⟨ctx, hmem, by simp [hname, hauth]⟩
  · intro reason hc name token hq
    rw [hc] at hq
    exact HandleLoginResult.noConfusion hq

/-- Witness: C10 applied at an empty login id and at a duplicated login. -/
theorem C10_handleLogin_prequeue_witness :
    handleLogin []
      { constant0 := 50, constant1 := 281, loginId := "", memberNo := 0, authKey := "T" } =
      .cancel .InvalidLoginId ∧
    handleLogin [{ userName := "alice", isAuthenticated := true }]
      { constant0 := 50, constant1 := 281, loginId := "alice", memberNo := 0, authKey := "T" } =
      .cancel .Duplicated :=
  ⟨(C10_handleLogin_prequeue [] _).1 (Or.inl rfl),
    (C10_handleLogin_prequeue [_] _).2.1 (by decide) (by decide)
      ⟨{ userName := "alice", isAuthenticated := true }, by simp, rfl, rfl⟩⟩

/-! ### The login pipeline queues (`LobbyDirector::Tick`) -/

/-- The user record fields the pipeline reads (`data::User`); `characterUid`
0 is `data::InvalidUid`. -/
structure UserRecord where
  token : String
  characterUid : Nat
deriving DecidableEq, Repr

/-- Oracle view of the `DataDirector` record cache. -/
structure DataDirector where
  beingLoaded : String → Bool
  userDataLoaded : String → Bool
  characterDataLoaded : String → Bool
  getUser : String → UserRecord

/-- `_clientLogins` entry (`QueuedLogin`). -/
structure QueuedLogin where
  userName : String := ""
  userToken : String := ""
  userLoadRequested : Bool := false
  userCharacterLoadRequested : Bool := false
deriving DecidableEq, Repr

/-- Outcome of settling the head of the login request queue (stage A,
`LobbyDirector::Tick`, after the load-state checks pass). -/
inductive RequestOutcome
  | reject (reason : LoginCancelReason)
  | queueResponse
deriving DecidableEq, Repr

/-- Stage A settlement, C++ `LobbyDirector::Tick` request-queue body after
the head is popped: data not loaded → Generic; stored token differs from the
submitted token → InvalidUser; infraction verdict prevents joining →
DisconnectYourself; otherwise the client is appended to the response
queue. -/
def settleRequest (dd : DataDirector) (infractionPreventsJoining : String → Bool)
    (login : QueuedLogin) : RequestOutcome :=
  if ¬ dd.userDataLoaded login.userName then
    .reject .Generic
  else if (dd.getUser login.userName).token ≠ login.userToken then
    .reject .InvalidUser
  else if infractionPreventsJoining login.userName then
    .reject .DisconnectYourself
  else
    .queueResponse

/-- Outcome of settling the head of the login response queue (stage B). -/
inductive ResponseOutcome
  | acceptCharacterCreator
  | reject (reason : LoginCancelReason)
  | accept
deriving DecidableEq, Repr

/-- Stage B settlement, C++ `LobbyDirector::Tick` response-queue body after
the head is popped: no character or forced into the creator →
accept-to-character-creator; character data unavailable → Generic; user name
already present in `_userInstances` → Duplicated; otherwise accept and
insert the user instance. -/
def settleResponse (dd : DataDirector) (login : QueuedLogin)
    (charactersForcedIntoCreator : List Nat) (userInstanceNames : List String) :
    ResponseOutcome :=
  let characterUid := (dd.getUser login.userName).characterUid
  let hasCharacter := characterUid ≠ 0
  let forcedCharacterCreator := characterUid ∈ charactersForcedIntoCreator
  if ¬ hasCharacter ∨ forcedCharacterCreator then
    .acceptCharacterCreator
  else if ¬ dd.characterDataLoaded login.userName then
    .reject .Generic
  else if login.userName ∈ userInstanceNames then
    .reject .Duplicated
  else
    .accept

/-- The state effect of a stage-A settlement on the two queues: the head is
popped, and on `queueResponse` the client id is appended to the response
queue. -/
def applyRequestOutcome (requestQueue responseQueue : List Nat) (clientId : Nat) :
    RequestOutcome → List Nat × List Nat
  | .reject _ => (requestQueue.tail, responseQueue)
  | .queueResponse => (requestQueue.tail, responseQueue ++ [clientId])

/-- C5: settlement of a loaded head of the request queue — token mismatch is
rejected with InvalidUser; a join-preventing infraction is rejected with
DisconnectYourself; otherwise the client is appended to the response queue;
and at stage B a user whose name is already in `_userInstances` is rejected
with Duplicated. -/
theorem C5_login_pipeline (dd : DataDirector) (infractionPreventsJoining : String → Bool)
    (login : QueuedLogin) (requestQueue responseQueue : List Nat) (clientId : Nat)
    (charactersForcedIntoCreator : List Nat) (userInstanceNames : List String)
    (hloaded : dd.userDataLoaded login.userName = true) :
    ((dd.getUser login.userName).token ≠ login.userToken →
      settleRequest dd infractionPreventsJoining login = .reject .InvalidUser) ∧
    ((dd.getUser login.userName).token = login.userToken →
      infractionPreventsJoining login.userName = true →
      settleRequest dd infractionPreventsJoining login = .reject .DisconnectYourself) ∧
    ((dd.getUser login.userName).token = login.userToken →
      infractionPreventsJoining login.userName = false →
      settleRequest dd infractionPreventsJoining login = .queueResponse ∧
      applyRequestOutcome requestQueue responseQueue clientId
          (settleRequest dd infractionPreventsJoining login) =
        (requestQueue.tail, responseQueue ++ [clientId])) ∧
    ((dd.getUser login.userName).characterUid ≠ 0 →
      (dd.getUser login.userName).characterUid ∉ charactersForcedIntoCreator →
      dd.characterDataLoaded login.userName = true →
      login.userName ∈ userInstanceNames →
      settleResponse dd login charactersForcedIntoCreator userInstanceNames =
        .reject .Duplicated) := by
  refine ⟨?_, ?_, ?_, ?_⟩
  · intro hne
    simp [settleRequest, hloaded, hne]
  · intro heq hinf
    simp [settleRequest, hloaded, heq, hinf]
  · intro heq hinf
    have hs : settleRequest dd infractionPreventsJoining login = .queueResponse := by
      simp [settleRequest, hloaded, heq, hinf]
    exact ⟨hs, by rw [hs]; rfl⟩
  · intro hchar hforced hcloaded hdup
    simp [settleResponse, hchar, hforced, hcloaded, hdup]

/-- Concrete oracle used by the C5 witness. -/
def ddC5 : DataDirector :=
  { beingLoaded := fun _ => false
    userDataLoaded := fun _ => true
    characterDataLoaded := fun _ => true
    getUser := fun _ => { token := "T", characterUid := 42 } }

/-- Witness: C5 applied to a loaded user "alice" whose token mismatches, and
whose name is already present among the user instances. -/
theorem C5_login_pipeline_witness :
    settleRequest ddC5 (fun _ => false)
      { userName := "alice", userToken := "WRONG" } = .reject .InvalidUser ∧
    settleResponse ddC5 { userName := "alice", userToken := "T" } [] ["alice"] =
      .reject .Duplicated := by
  constructor
  · exact (C5_login_pipeline ddC5 (fun _ => false)
      { userName := "alice", userToken := "WRONG" } [] [] 0 [] [] rfl).1 (by decide)
  · exact (C5_login_pipeline ddC5 (fun _ => false)
      { userName := "alice", userToken := "T" } [] [] 0 [] ["alice"] rfl).2.2.2
      (by decide) (by decide) rfl (by decide)






/-! ## Race director state (`RaceDirector::RoomInstance`, `tracker::RaceTracker`)

The course registry and the data director are collaborators; they enter as
oracle parameters.  `std::random_device` draws become explicit index
parameters.  Time points are not needed by the claims below; the timeout
comparisons of `Tick` become explicit Bool inputs. -/

/-- `RoomInstance::Stage`. -/
inductive RaceStage
  | Waiting
  | Loading
  | Racing
  | Finishing
deriving DecidableEq, Repr

/-- `tracker::RaceTracker::Racer::State`. -/
inductive RacerState
  | Disconnected
  | Loading
  | Racing
  | Finishing
deriving DecidableEq, Repr

/-- `tracker::RaceTracker::Racer::Team`. -/
inductive RacerTeam
  | Solo
  | Red
  | Blue
deriving DecidableEq, Repr

/-- `tracker::RaceTracker::Racer` (the fields used by the embedded
handlers). -/
structure Racer where
  oid : Nat
  state : RacerState := .Loading
  team : RacerTeam := .Solo
  starPointValue : Nat := 0
  jumpComboValue : Nat := 0
  courseTime : Nat := 4294967295
  magicItem : Option Nat := none
deriving DecidableEq, Repr

/-- `RaceDirector::RoomInstance`.  `raceTeamModeRaw` is the underlying
integral value stored in the `protocol::TeamMode` field (a `static_cast`
preserves the underlying value). -/
structure RaceInstance where
  stage : RaceStage := .Waiting
  masterUid : Nat := 0
  raceGameMode : RoomGameMode := .Speed
  raceTeamModeRaw : Nat := 0
  raceMapBlockId : Nat := 0
  raceMissionId : Nat := 0
  clients : List Nat := []
  racers : List (Nat × Racer) := []
deriving DecidableEq, Repr

/-- `RaceTracker::GetRacer` lookup (the C++ throws when absent; callers
match on `none`). -/
def RaceInstance.getRacer (inst : RaceInstance) (characterUid : Nat) : Option Racer :=
  (inst.racers.find? (fun p => p.1 == characterUid)).map Prod.snd

/-- In-place mutation of one racer through the `GetRacer` reference. -/
def RaceInstance.setRacer (inst : RaceInstance) (characterUid : Nat) (racer : Racer) :
    RaceInstance :=
  { inst with
    racers := inst.racers.map (fun p => if p.1 == characterUid then (p.1, racer) else p) }

theorem getRacer_setRacer (inst : RaceInstance) (uid : Nat) (racer : Racer) :
    (inst.setRacer uid racer).getRacer uid = (inst.getRacer uid).map (fun _ => racer) := by
  unfold RaceInstance.getRacer RaceInstance.setRacer
  induction inst.racers with
  | nil => rfl
  | cons p rest ih =>
    by_cases h : p.1 == uid
    · simp [List.find?, h]
    · simp only [List.map_cons, List.find?]
      rw [if_neg (by simpa using h)]
      simpa [h] using ih

/-- `CourseRegistry` game-mode template (`GetCourseGameModeInfo`). -/
structure GameModeTemplate where
  starPointsMax : Nat := 0
  spurConsumeStarPoints : Nat := 0
  perfectJumpStarPoints : Nat := 0
  perfectJumpUnitStarPoints : Nat := 0
  perfectJumpMaxBonusCombo : Nat := 0
  goodJumpStarPoints : Nat := 0
  mapPool : List Nat := []
deriving DecidableEq, Repr

/-- `CourseRegistry` map-block template (`GetMapBlockInfo`; `none` models the
lookup throwing for an unknown id). -/
structure MapBlockInfo where
  requiredLevel : Nat := 0
  timeLimit : Nat := 0
  waitTime : Nat := 0
deriving DecidableEq, Repr

/-- Course registry oracle, keyed by the game mode's integral value and the
map block id. -/
structure CourseRegistry where
  gameModeInfo : Nat → GameModeTemplate
  mapBlockInfo : Nat → Option MapBlockInfo

/-- An outbound race-director frame queued by a handler. -/
inductive RaceMsg
  | starPointGetOK (characterOid starPointValue : Nat) (giveMagicItem : Bool)
  | requestSpurOK (characterOid startPointValue : Nat)
  | hurdleClearResultOK (characterOid : Nat) (hurdleClearType : Nat) (jumpCombo : Nat)
  | requestMagicItemOK (characterOid item : Nat)
  | requestMagicItemNotify (item characterOid : Nat)
deriving DecidableEq, Repr

/-! ### `RaceDirector::HandleStarPointGet` / `HandleRequestSpur` -/

/-- C++ `RaceDirector::HandleStarPointGet`: identity check against the
racer's OID (throws on mismatch), then adds the gained star points in
`uint32` arithmetic, clamped to `starPointsMax`, and replies with the new
gauge. -/
def handleStarPointGet (inst : RaceInstance) (tmpl : GameModeTemplate)
    (characterUid : Nat) (clientId : Nat) (commandCharacterOid gainedStarPoints : Nat) :
    Except String (RaceInstance × List (Nat × RaceMsg)) :=
  match inst.getRacer characterUid with
  | none => .error "Race tracker does not contain the racer"
  | some racer =>
    if commandCharacterOid ≠ racer.oid then
      .error "Client tried to perform action on behalf of different racer"
    else
      let racer2 := { racer with
        starPointValue := min ((racer.starPointValue + gainedStarPoints) % 4294967296) tmpl.starPointsMax }
      .ok (inst.setRacer characterUid racer2,
        [(clientId, .starPointGetOK commandCharacterOid racer2.starPointValue false)])

/-- C++ `RaceDirector::HandleRequestSpur`: identity check (throws on
mismatch), then requires `star_point_value ≥ spurConsumeStarPoints` (throws
when the gauge is insufficient) and deducts it, replying with both the
spur-OK and the gauge update. -/
def handleRequestSpur (inst : RaceInstance) (tmpl : GameModeTemplate)
    (characterUid : Nat) (clientId : Nat) (commandCharacterOid : Nat) :
    Except String (RaceInstance × List (Nat × RaceMsg)) :=
  match inst.getRacer characterUid with
  | none => .error "Race tracker does not contain the racer"
  | some racer =>
    if commandCharacterOid ≠ racer.oid then
      .error "Client tried to perform action on behalf of different racer"
    else if racer.starPointValue < tmpl.spurConsumeStarPoints then
      .error "Client is dead ass cheating (or is really desynced)"
    else
      let racer2 := { racer with starPointValue := racer.starPointValue - tmpl.spurConsumeStarPoints }
      .ok (inst.setRacer characterUid racer2,
        [(clientId, .requestSpurOK commandCharacterOid racer2.starPointValue),
          (clientId, .starPointGetOK commandCharacterOid racer2.starPointValue false)])

/-- C7: for `HandleStarPointGet` and `HandleRequestSpur`, a command whose
`characterOid` differs from the sending racer's OID fails fatally with the
race state unchanged; otherwise StarPointGet adds the gained points clamped
to `starPointsMax`, and RequestSpur requires `star_point_value ≥
spurConsumeStarPoints` (raising fatally when the gauge is insufficient) and
deducts it. -/
theorem C7_starpoint_spur (inst : RaceInstance) (tmpl : GameModeTemplate)
    (characterUid clientId oid gained : Nat) (racer : Racer)
    (hracer : inst.getRacer characterUid = some racer) :
    (oid ≠ racer.oid →
      handleStarPointGet inst tmpl characterUid clientId oid gained =
        .error "Client tried to perform action on behalf of different racer" ∧
      handleRequestSpur inst tmpl characterUid clientId oid =
        .error "Client tried to perform action on behalf of different racer") ∧
    (oid = racer.oid →
      handleStarPointGet inst tmpl characterUid clientId oid gained =
        .ok (inst.setRacer characterUid
              { racer with starPointValue := min ((racer.starPointValue + gained) % 4294967296) tmpl.starPointsMax },
            [(clientId, .starPointGetOK oid
                (min ((racer.starPointValue + gained) % 4294967296) tmpl.starPointsMax) false)])) ∧
    (oid = racer.oid → racer.starPointValue < tmpl.spurConsumeStarPoints →
      handleRequestSpur inst tmpl characterUid clientId oid =
        .error "Client is dead ass cheating (or is really desynced)") ∧
    (oid = racer.oid → tmpl.spurConsumeStarPoints ≤ racer.starPointValue →
      handleRequestSpur inst tmpl characterUid clientId oid =
        .ok (inst.setRacer characterUid
              { racer with starPointValue := racer.starPointValue - tmpl.spurConsumeStarPoints },
            [(clientId, .requestSpurOK oid (racer.starPointValue - tmpl.spurConsumeStarPoints)),
              (clientId, .starPointGetOK oid
                (racer.starPointValue - tmpl.spurConsumeStarPoints) false)])) := by
  refine ⟨?_, ?_, ?_, ?_⟩
  · intro hne
    constructor
    · simp [handleStarPointGet, hracer, hne]
    · simp [handleRequestSpur, hracer, hne]
  · intro heq
    simp [handleStarPointGet, hracer, heq]
  · intro heq hlt
    simp [handleRequestSpur, hracer, heq, hlt]
  · intro heq hge
    simp [handleRequestSpur, hracer, heq, Nat.not_lt.mpr hge]

/-- Witness: C7 applied to a concrete racer (OID 3, gauge 500, spur cost
200): the mismatched OID 4 raises, the spur succeeds at 300. -/
theorem C7_starpoint_spur_witness :
    handleStarPointGet
        { racers := [(7, { oid := 3, starPointValue := 500 })] }
        { starPointsMax := 40000, spurConsumeStarPoints := 200 } 7 1 4 100 =
      .error "Client tried to perform action on behalf of different racer" ∧
    handleRequestSpur
        { racers := [(7, { oid := 3, starPointValue := 500 })] }
        { starPointsMax := 40000, spurConsumeStarPoints := 200 } 7 1 3 =
      .ok ({ racers := [(7, { oid := 3, starPointValue := 300 })] },
        [(1, .requestSpurOK 3 300), (1, .starPointGetOK 3 300 false)]) := by
  constructor
  · exact ((C7_starpoint_spur
      { racers := [(7, { oid := 3, starPointValue := 500 })] }
      { starPointsMax := 40000, spurConsumeStarPoints := 200 } 7 1 4 100
      { oid := 3, starPointValue := 500 } rfl).1 (by decide)).1
  · have h := (C7_starpoint_spur
      { racers := [(7, { oid := 3, starPointValue := 500 })] }
      { starPointsMax := 40000, spurConsumeStarPoints := 200 } 7 1 3 0
      { oid := 3, starPointValue := 500 } rfl).2.2.2 rfl (by decide)
    rw [h]
    rfl

/-! ### `RaceDirector::HandleHurdleClearResult` -/

/-- `AcCmdCRHurdleClearResult::HurdleClearType`; `Unknown` stands for any
value outside the four handled cases (the C++ `default` branch). -/
inductive HurdleClearType
  | Perfect
  | Good
  | DoubleJumpOrGlide
  | Collision
  | Unknown
deriving DecidableEq, Repr

/-- Outbound frames of the hurdle handler: the gauge update (not sent for a
collision or an unknown type) and the hurdle-clear echo. -/
inductive HurdleMsg
  | starPointGetOK (characterOid starPointValue : Nat) (giveMagicItem : Bool)
  | hurdleClearResultOK (characterOid : Nat) (hurdleClearType : HurdleClearType)
      (jumpCombo : Nat)
deriving DecidableEq, Repr

/-- C++ `RaceDirector::HandleHurdleClearResult`: identity check, then per
clear type: `Perfect` increments the jump combo (cap 99) and awards
`perfectJumpStarPoints + min(perfectJumpMaxBonusCombo, newCombo) *
perfectJumpUnitStarPoints` clamped to `starPointsMax` (the echoed combo is
only non-zero in Speed mode); `Good`/`DoubleJumpOrGlide` reset the combo and
award `goodJumpStarPoints` clamped; `Collision` resets the combo and awards
nothing (no gauge update is sent); an unknown type is logged and ignored.
`giveMagicItem` is set when the race is in Magic mode, the gauge saturated
and the clear was Perfect. -/
def handleHurdleClearResult (inst : RaceInstance) (tmpl : GameModeTemplate)
    (characterUid clientId commandCharacterOid : Nat) (hurdleClearType : HurdleClearType) :
    Except String (RaceInstance × List (Nat × HurdleMsg)) :=
  match inst.getRacer characterUid with
  | none => .error "Race tracker does not contain the racer"
  | some racer =>
    if commandCharacterOid ≠ racer.oid then
      .error "Client tried to perform action on behalf of different racer"
    else
      match hurdleClearType with
      | .Perfect =>
        let jumpCombo2 := min 99 ((racer.jumpComboValue + 1) % 4294967296)
        let responseJumpCombo := if inst.raceGameMode = RoomGameMode.Speed then jumpCombo2 else 0
        let applicableComboCount := min tmpl.perfectJumpMaxBonusCombo jumpCombo2
        let gainedStarPointsFromCombo :=
          (applicableComboCount * tmpl.perfectJumpUnitStarPoints) % 4294967296
        let star2 := min
          ((racer.starPointValue + tmpl.perfectJumpStarPoints + gainedStarPointsFromCombo) %
            4294967296) tmpl.starPointsMax
        let giveMagicItem :=
          decide (inst.raceGameMode = RoomGameMode.Magic ∧ tmpl.starPointsMax ≤ star2)
        .ok (inst.setRacer characterUid
            { racer with jumpComboValue := jumpCombo2, starPointValue := star2 },
          [(clientId, .starPointGetOK commandCharacterOid star2 giveMagicItem),
            (clientId, .hurdleClearResultOK commandCharacterOid hurdleClearType responseJumpCombo)])
      | .Good | .DoubleJumpOrGlide =>
        let star2 := min ((racer.starPointValue + tmpl.goodJumpStarPoints) % 4294967296)
          tmpl.starPointsMax
        .ok (inst.setRacer characterUid
            { racer with jumpComboValue := 0, starPointValue := star2 },
          [(clientId, .starPointGetOK commandCharacterOid star2 false),
            (clientId, .hurdleClearResultOK commandCharacterOid hurdleClearType 0)])
      | .Collision =>
        .ok (inst.setRacer characterUid { racer with jumpComboValue := 0 },
          [(clientId, .hurdleClearResultOK commandCharacterOid hurdleClearType 0)])
      | .Unknown =>
        .ok (inst, [])

/-- The game-mode template of the Speed-mode perfect-jump scenario. -/
def tmplC4 : GameModeTemplate :=
  { starPointsMax := 40000, perfectJumpStarPoints := 1000, perfectJumpUnitStarPoints := 200,
    perfectJumpMaxBonusCombo := 5 }

def instC4 : RaceInstance :=
  { raceGameMode := .Speed, racers := [(7, { oid := 3 })] }

/-- One Perfect hurdle clear by the racer of `instC4`. -/
def stepPerfect (inst : RaceInstance) : RaceInstance :=
  match handleHurdleClearResult inst tmplC4 7 1 3 .Perfect with
  | .ok (inst2, _) => inst2
  | .error _ => inst

def starAfterPerfects (n : Nat) : Nat :=
  match (stepPerfect^[n] instC4).getRacer 7 with
  | some racer => racer.starPointValue
  | none => 0

/-- C4: per clear type, `HandleHurdleClearResult` updates the racer as the
spec states (`combo` in the Perfect award formula being the just-incremented
combo value, as the worked example pins down), and three consecutive
Perfects in Speed mode with `perfectJumpMaxBonusCombo = 5,
perfectJumpStarPoints = 1000, perfectJumpUnitStarPoints = 200, starPointsMax
= 40000` from a zero gauge yield 1200, 2600 and 4200. -/
theorem C4_hurdle_clear (inst : RaceInstance) (tmpl : GameModeTemplate)
    (characterUid clientId oid : Nat) (racer : Racer)
    (hracer : inst.getRacer characterUid = some racer) (hoid : oid = racer.oid)
    (hcombo : racer.jumpComboValue ≤ 99)
    (hstar : racer.starPointValue ≤ tmpl.starPointsMax)
    (hbound : tmpl.starPointsMax + tmpl.perfectJumpStarPoints +
        tmpl.perfectJumpMaxBonusCombo * tmpl.perfectJumpUnitStarPoints +
        tmpl.goodJumpStarPoints < 4294967296) :
    (handleHurdleClearResult inst tmpl characterUid clientId oid .Perfect =
      .ok (inst.setRacer characterUid
          { racer with
            jumpComboValue := min 99 (racer.jumpComboValue + 1)
            starPointValue := min (racer.starPointValue + tmpl.perfectJumpStarPoints +
              min tmpl.perfectJumpMaxBonusCombo (min 99 (racer.jumpComboValue + 1)) *
                tmpl.perfectJumpUnitStarPoints) tmpl.starPointsMax },
        [(clientId, .starPointGetOK oid
            (min (racer.starPointValue + tmpl.perfectJumpStarPoints +
              min tmpl.perfectJumpMaxBonusCombo (min 99 (racer.jumpComboValue + 1)) *
                tmpl.perfectJumpUnitStarPoints) tmpl.starPointsMax)
            (decide (inst.raceGameMode = RoomGameMode.Magic ∧ tmpl.starPointsMax ≤
              min (racer.starPointValue + tmpl.perfectJumpStarPoints +
                min tmpl.perfectJumpMaxBonusCombo (min 99 (racer.jumpComboValue + 1)) *
                  tmpl.perfectJumpUnitStarPoints) tmpl.starPointsMax))),
          (clientId, .hurdleClearResultOK oid .Perfect
            (if inst.raceGameMode = RoomGameMode.Speed then min 99 (racer.jumpComboValue + 1)
              else 0))])) ∧
    (∀ t, (t = HurdleClearType.Good ∨ t = HurdleClearType.DoubleJumpOrGlide) →
      handleHurdleClearResult inst tmpl characterUid clientId oid t =
        .ok (inst.setRacer characterUid
            { racer with
              jumpComboValue := 0
              starPointValue := min (racer.starPointValue + tmpl.goodJumpStarPoints)
                tmpl.starPointsMax },
          [(clientId, .starPointGetOK oid
              (min (racer.starPointValue + tmpl.goodJumpStarPoints) tmpl.starPointsMax) false),
            (clientId, .hurdleClearResultOK oid t 0)])) ∧
    (handleHurdleClearResult inst tmpl characterUid clientId oid .Collision =
      .ok (inst.setRacer characterUid { racer with jumpComboValue := 0 },
        [(clientId, .hurdleClearResultOK oid .Collision 0)])) ∧
    (starAfterPerfects 1 = 1200 ∧ starAfterPerfects 2 = 2600 ∧ starAfterPerfects 3 = 4200) := by
  have h1 : (racer.jumpComboValue + 1) % 4294967296 = racer.jumpComboValue + 1 :=
    Nat.mod_eq_of_lt (by omega)
  have hj : min 99 (racer.jumpComboValue + 1) ≤ 99 := Nat.min_le_left _ _
  have h2 : min tmpl.perfectJumpMaxBonusCombo (min 99 (racer.jumpComboValue + 1)) *
      tmpl.perfectJumpUnitStarPoints % 4294967296 =
      min tmpl.perfectJumpMaxBonusCombo (min 99 (racer.jumpComboValue + 1)) *
        tmpl.perfectJumpUnitStarPoints := by
    apply Nat.mod_eq_of_lt
    have := Nat.mul_le_mul_right tmpl.perfectJumpUnitStarPoints
      (Nat.min_le_left tmpl.perfectJumpMaxBonusCombo (min 99 (racer.jumpComboValue + 1)))
    omega
  have h3 : (racer.starPointValue + tmpl.perfectJumpStarPoints +
      min tmpl.perfectJumpMaxBonusCombo (min 99 (racer.jumpComboValue + 1)) *
        tmpl.perfectJumpUnitStarPoints) % 4294967296 =
      racer.starPointValue + tmpl.perfectJumpStarPoints +
        min tmpl.perfectJumpMaxBonusCombo (min 99 (racer.jumpComboValue + 1)) *
          tmpl.perfectJumpUnitStarPoints := by
    apply Nat.mod_eq_of_lt
    have := Nat.mul_le_mul_right tmpl.perfectJumpUnitStarPoints
      (Nat.min_le_left tmpl.perfectJumpMaxBonusCombo (min 99 (racer.jumpComboValue + 1)))
    omega
  have h4 : (racer.starPointValue + tmpl.goodJumpStarPoints) % 4294967296 =
      racer.starPointValue + tmpl.goodJumpStarPoints := Nat.mod_eq_of_lt (by omega)
  refine ⟨?_, ?_, ?_, by decide⟩
  · simp only [handleHurdleClearResult, hracer, hoid]
    rw [if_neg (by simp)]
    simp only [h1, h2, h3]
  · intro t ht
    rcases ht with rfl | rfl
    · simp only [handleHurdleClearResult, hracer, hoid]
      rw [if_neg (by simp)]
      simp only [h4]
    · simp only [handleHurdleClearResult, hracer, hoid]
      rw [if_neg (by simp)]
      simp only [h4]
  · simp only [handleHurdleClearResult, hracer, hoid]
    rw [if_neg (by simp)]

/-- Witness: C4 applied to the scenario racer after no jumps (combo 0, gauge
0): one Perfect awards 1200. -/
theorem C4_hurdle_clear_witness :
    handleHurdleClearResult instC4 tmplC4 7 1 3 .Perfect =
      .ok (instC4.setRacer 7 { oid := 3, jumpComboValue := 1, starPointValue := 1200 },
        [(1, .starPointGetOK 3 1200 false), (1, .hurdleClearResultOK 3 .Perfect 1)]) := by
  have h := (C4_hurdle_clear instC4 tmplC4 7 1 3 { oid := 3 } rfl rfl (by decide) (by decide)
    (by decide)).1
  rw [h]
  rfl

/-! ### `RaceDirector::HandleRequestMagicItem` and `RandomMagicItem` -/

/-- C++ `magicItems` table: 2 = bolt, 4 = shield, 10 = ice wall. -/
def magicItems : List Nat := [2, 4, 10]

/-- C++ `RandomMagicItem`: a uniform draw over `magicItems`; the
`std::random_device` draw becomes the explicit index. -/
def RandomMagicItem (k : Fin 3) : Nat := magicItems.get ⟨k, by cases k with | mk v h => exact h⟩

/-- C++ `RaceDirector::HandleRequestMagicItem`: OID mismatch is ignored;
a racer already holding a magic item only produces a warning log and no
reply; otherwise the gauge is zeroed (reply queued first), a random item is
assigned, the requester gets the OK reply and every other room client the
notify. -/
def handleRequestMagicItem (inst : RaceInstance) (clientId characterUid member1 : Nat)
    (k : Fin 3) : Except String (RaceInstance × List (Nat × RaceMsg)) :=
  match inst.getRacer characterUid with
  | none => .error "Race tracker does not contain the racer"
  | some racer =>
    if member1 ≠ racer.oid then
      .ok (inst, [])
    else if racer.magicItem.isSome then
      .ok (inst, [])
    else
      let gainedMagicItem := RandomMagicItem k
      .ok (inst.setRacer characterUid
          { racer with starPointValue := 0, magicItem := some gainedMagicItem },
        (clientId, RaceMsg.starPointGetOK member1 0 false) ::
          (clientId, RaceMsg.requestMagicItemOK member1 gainedMagicItem) ::
          (inst.clients.filter (fun c => c ≠ clientId)).map
            (fun c => (c, RaceMsg.requestMagicItemNotify gainedMagicItem member1)))

/-- C8: when the requesting racer holds no magic item, the gauge is zeroed
and a magic item from {2 (bolt), 4 (shield), 10 (ice wall)} is assigned
(every draw lands in that set and every element is attainable), the
requester is replied to and the other room clients notified; when the racer
already holds an item, the state is unchanged and nothing is sent — so a
racer holds at most one magic item at a time. -/
theorem C8_request_magic_item (inst : RaceInstance) (clientId characterUid member1 : Nat)
    (k : Fin 3) (racer : Racer)
    (hracer : inst.getRacer characterUid = some racer) (hoid : member1 = racer.oid) :
    (racer.magicItem = none →
      handleRequestMagicItem inst clientId characterUid member1 k =
        .ok (inst.setRacer characterUid
            { racer with starPointValue := 0, magicItem := some (RandomMagicItem k) },
          (clientId, RaceMsg.starPointGetOK member1 0 false) ::
            (clientId, RaceMsg.requestMagicItemOK member1 (RandomMagicItem k)) ::
            (inst.clients.filter (fun c => c ≠ clientId)).map
              (fun c => (c, RaceMsg.requestMagicItemNotify (RandomMagicItem k) member1)))) ∧
    (racer.magicItem.isSome = true →
      handleRequestMagicItem inst clientId characterUid member1 k = .ok (inst, [])) ∧
    RandomMagicItem k ∈ magicItems ∧
    (∀ m ∈ magicItems, ∃ j : Fin 3, RandomMagicItem j = m) := by
  refine ⟨?_, ?_, ?_, ?_⟩
  · intro hnone
    simp only [handleRequestMagicItem, hracer, hoid]
    rw [if_neg (by simp), if_neg (by simp [hnone])]
  · intro hsome
    simp only [handleRequestMagicItem, hracer, hoid]
    rw [if_neg (by simp), if_pos hsome]
  · exact List.get_mem _ _ _
  · intro m hm
    fin_cases hm
    · exact ⟨0, rfl⟩
    · exact ⟨1, rfl⟩
    · exact ⟨2, rfl⟩

/-- Race instance of the C8 scenario: requester client 1 (racer OID 3,
saturated gauge), bystander client 9. -/
def instC8 : RaceInstance :=
  { clients := [1, 9], racers := [(7, { oid := 3, starPointValue := 30000 })] }

/-- The same instance after the ice wall (10) was granted. -/
def instC8held : RaceInstance :=
  { clients := [1, 9], racers := [(7, { oid := 3, starPointValue := 0, magicItem := some 10 })] }

/-- Witness: C8 applied to a holding-nothing racer (draw 2 → ice wall, gauge
zeroed, other client 9 notified) and then to the same racer already holding
the item (no reply). -/
theorem C8_request_magic_item_witness :
    handleRequestMagicItem instC8 1 7 3 2 =
      .ok (instC8held,
        [(1, RaceMsg.starPointGetOK 3 0 false), (1, RaceMsg.requestMagicItemOK 3 10),
          (9, RaceMsg.requestMagicItemNotify 10 3)]) ∧
    handleRequestMagicItem instC8held 1 7 3 0 = .ok (instC8held, []) := by
  constructor
  · have h := (C8_request_magic_item instC8 1 7 3 2
      { oid := 3, starPointValue := 30000 } rfl rfl).1 rfl
    rw [h]
    rfl
  · exact (C8_request_magic_item instC8held 1 7 3 0
      { oid := 3, starPointValue := 0, magicItem := some 10 } rfl rfl).2.1 rfl



/-! ### `RaceDirector::HandleStartRace` -/

/-- Team conversion in the racer population loop of `HandleStartRace`. -/
def raceTeamFromRoom : PlayerTeam → RacerTeam
  | .Solo => .Solo
  | .Red => .Red
  | .Blue => .Blue

/-- The tail of `HandleStartRace` once the map block id is selected: clear
the tracker, populate the racers from the room's players (OIDs assigned
monotonically from 1, all in `Loading`), set the stage to `Loading`. -/
def startRaceFinish (inst : RaceInstance) (room : Room) (mapBlockId : Nat) : RaceInstance :=
  { inst with
    raceMapBlockId := mapBlockId
    racers := room.players.mapIdx (fun i p =>
      (p.1, { oid := i + 1, state := RacerState.Loading, team := raceTeamFromRoom p.2 : Racer }))
    stage := RaceStage.Loading }

/-- C++ `RaceDirector::HandleStartRace`: only the master may start (a
non-master request throws).  Snapshots the room details into the race
instance — note the C++ assigns
`raceTeamMode = static_cast<protocol::TeamMode>(details.gameMode)`, so the
team-mode field receives the game mode's underlying value.  For the
pseudo-courses 10000/10001/10002 the map is drawn from the game mode's map
pool filtered by `requiredLevel ≤ master level` (an empty filtered pool
makes the C++ `uniform_int_distribution(0, -1)` draw undefined); an empty
pool falls back to map id 1. -/
def handleStartRace (inst : RaceInstance) (room : Room) (registry : CourseRegistry)
    (masterLevel randIndex characterUid : Nat) : Except String RaceInstance :=
  if characterUid ≠ inst.masterUid then
    .error "Client tried to start the race even though they're not the master"
  else
    let details := room.details
    let inst2 := { inst with
      raceGameMode := details.gameMode
      raceTeamModeRaw := details.gameMode.val
      raceMissionId := details.missionId }
    let roomSelectedCourses := details.courseId
    if roomSelectedCourses = 10000 ∨ roomSelectedCourses = 10001 ∨
        roomSelectedCourses = 10002 then
      let gameMode := registry.gameModeInfo details.gameMode.val
      if gameMode.mapPool ≠ [] then
        let filteredMaps := gameMode.mapPool.filter (fun mapBlockId =>
          match registry.mapBlockInfo mapBlockId with
          | some info => info.requiredLevel ≤ masterLevel
          | none => false)
        match filteredMaps with
        | [] => .error "undefined behavior: uniform_int_distribution over an empty range"
        | m :: ms =>
          .ok (startRaceFinish inst2 room ((m :: ms).getD (randIndex % (m :: ms).length) 0))
      else
        .ok (startRaceFinish inst2 room 1)
    else
      .ok (startRaceFinish inst2 room roomSelectedCourses)

/-- The C6 scenario: master character 11 (level 10), room in Magic mode,
Solo team mode, mission 9, pseudo-course 10000 selected. -/
def roomC6 : Room :=
  { uid := 5
    details :=
      { missionId := 9, courseId := 10000, maxPlayerCount := 8, gameMode := .Magic, teamMode := .Solo }
    players := [(11, .Solo)] }

def registryC6 : CourseRegistry :=
  { gameModeInfo := fun _ => { mapPool := [301, 302, 303] }
    mapBlockInfo := fun mid =>
      if mid = 301 then some { requiredLevel := 1 }
      else if mid = 302 then some { requiredLevel := 10 }
      else if mid = 303 then some { requiredLevel := 99 }
      else none }

def instC6 : RaceInstance := { masterUid := 11, clients := [1] }

/-- The race instance produced by the master's StartRace in the C6
scenario (random draw index 0). -/
def startedC6 : RaceInstance :=
  match handleStartRace instC6 roomC6 registryC6 10 0 11 with
  | .ok inst2 => inst2
  | .error _ => instC6

/-- A second draw (index 1) of the same scenario. -/
def startedC6draw1 : RaceInstance :=
  match handleStartRace instC6 roomC6 registryC6 10 1 11 with
  | .ok inst2 => inst2
  | .error _ => instC6

/-- An empty-map-pool registry: the fallback map id is the constant 1. -/
def registryC6empty : CourseRegistry :=
  { gameModeInfo := fun _ => { mapPool := [] }, mapBlockInfo := fun _ => none }

def startedC6empty : RaceInstance :=
  match handleStartRace instC6 roomC6 registryC6empty 10 0 11 with
  | .ok inst2 => inst2
  | .error _ => instC6

/-- C6: `HandleStartRace` at the failing input.  A non-master request fails
fatally, and the snapshot takes the room's game mode and mission id; the
pseudo-course draw stays within the level-filtered map pool ({301, 302} at
master level 10, both attainable across draws) and the empty pool falls
back to map id 1.  But the race team mode receives the *game mode's*
underlying value (`static_cast<protocol::TeamMode>(details.gameMode)`):
for the Magic/Solo room it stores 2 (= Team) although the room's team mode
value is 1 (= Solo) — the snapshot of the claim does not hold. -/
theorem C6_start_race_team_mode_bug :
    handleStartRace instC6 roomC6 registryC6 10 0 12 =
      .error "Client tried to start the race even though they're not the master" ∧
    handleStartRace instC6 roomC6 registryC6 10 0 11 = .ok startedC6 ∧
    startedC6.raceGameMode = roomC6.details.gameMode ∧
    startedC6.raceMissionId = roomC6.details.missionId ∧
    startedC6.stage = RaceStage.Loading ∧
    startedC6.raceMapBlockId = 301 ∧ startedC6draw1.raceMapBlockId = 302 ∧
    startedC6empty.raceMapBlockId = 1 ∧
    startedC6.racers = [(11, { oid := 1, state := RacerState.Loading, team := RacerTeam.Solo })] ∧
    startedC6.raceTeamModeRaw = roomC6.details.gameMode.val ∧
    startedC6.raceTeamModeRaw = 2 ∧
    roomC6.details.teamMode.val = 1 ∧
    startedC6.raceTeamModeRaw ≠ roomC6.details.teamMode.val := by
  refine ⟨rfl, rfl, rfl, rfl, rfl, rfl, rfl, rfl, rfl, rfl, rfl, rfl, by decide⟩

/-! ### The race stage machine (`RaceDirector::Tick`, `HandleStartRace`; C2) -/

/-- The demotion of every racer that has not started racing when the
Loading stage resolves. -/
def demoteRacers (racers : List RacerState) : List RacerState :=
  racers.map (fun s => if s ≠ RacerState.Racing then RacerState.Disconnected else s)

/-- Loop 1 of `Tick`: a Loading instance whose racers are all Racing or
Disconnected — or whose loading timeout was reached — moves to Racing,
demoting the stragglers. -/
def tickLoading (stage : RaceStage) (racers : List RacerState) (loadTimeout : Bool) :
    RaceStage × List RacerState × List RaceStage :=
  if stage = RaceStage.Loading ∧
      (racers.all (fun s => s = .Racing ∨ s = .Disconnected) ∨ loadTimeout) then
    (RaceStage.Racing, demoteRacers racers, [RaceStage.Racing])
  else (stage, racers, [])

/-- Loop 2 of `Tick`: a Racing instance with some Finishing racer — or past
the race timeout — moves to Finishing. -/
def tickRacing (stage : RaceStage) (racers : List RacerState) (raceTimeout : Bool) :
    RaceStage × List RaceStage :=
  if stage = RaceStage.Racing ∧
      (racers.any (fun s => s = RacerState.Finishing) ∨ raceTimeout) then
    (RaceStage.Finishing, [RaceStage.Finishing])
  else (stage, [])

/-- Loop 3 of `Tick`: a Finishing instance whose racers are all Finishing or
Disconnected — or past the finishing timeout — settles back to Waiting. -/
def tickFinishing (stage : RaceStage) (racers : List RacerState) (finishTimeout : Bool) :
    RaceStage × List RaceStage :=
  if stage = RaceStage.Finishing ∧
      (racers.all (fun s => s = .Finishing ∨ s = .Disconnected) ∨ finishTimeout) then
    (RaceStage.Waiting, [RaceStage.Waiting])
  else (stage, [])

/-- One pass of `RaceDirector::Tick` over a single instance: the three loops
process Loading, Racing and Finishing rooms in that order (so an instance
transitioned by an earlier loop is seen again by the next), with the
timeout clock comparisons as explicit inputs.  Returns the new stage, the
new racer states and the list of stage values assigned during the tick. -/
def tickInstance (stage : RaceStage) (racers : List RacerState)
    (loadTimeout raceTimeout finishTimeout : Bool) :
    RaceStage × List RacerState × List RaceStage :=
  let r1 := tickLoading stage racers loadTimeout
  let r2 := tickRacing r1.1 r1.2.1 raceTimeout
  let r3 := tickFinishing r2.1 r1.2.1 finishTimeout
  (r3.1, r1.2.1, r1.2.2 ++ (r2.2 ++ r3.2))

/-- The stage-relevant events of a race instance's life: a successful
master `HandleStartRace` (populates `playerCount` racers in `Loading` and
sets the stage to `Loading`), a director tick, and a racer state change by
any other handler (loading-complete, finish, disconnect — these never touch
the stage). -/
inductive RaceEvent
  | startRace (playerCount : Nat)
  | tick (loadTimeout raceTimeout finishTimeout : Bool)
  | setRacerState (idx : Nat) (s : RacerState)
deriving DecidableEq, Repr

/-- Apply one event; the second component lists the stage values assigned
while handling it. -/
def applyRaceEvent (st : RaceStage × List RacerState) (e : RaceEvent) :
    (RaceStage × List RacerState) × List RaceStage :=
  match e with
  | .startRace n => ((RaceStage.Loading, List.replicate n RacerState.Loading), [RaceStage.Loading])
  | .tick lt rt ft =>
    let r := tickInstance st.1 st.2 lt rt ft
    ((r.1, r.2.1), r.2.2)
  | .setRacerState i s => ((st.1, st.2.set i s), [])

/-- All stage values observed after the initial one. -/
def observedStages (st : RaceStage × List RacerState) : List RaceEvent → List RaceStage
  | [] => []
  | e :: es =>
    (applyRaceEvent st e).2 ++ observedStages (applyRaceEvent st e).1 es

/-- The full observed stage sequence of one race instance, which is created
in `Waiting` with no racers. -/
def raceStageTrace (events : List RaceEvent) : List RaceStage :=
  RaceStage.Waiting :: observedStages (RaceStage.Waiting, []) events

/-- The successor in the `Waiting → Loading → Racing → Finishing → Waiting`
cycle. -/
def nextStage : RaceStage → RaceStage
  | .Waiting => .Loading
  | .Loading => .Racing
  | .Racing => .Finishing
  | .Finishing => .Waiting

/-- Two consecutively observed stages either coincide or advance one step of
the cycle; this (from the `Waiting` start) is exactly "the observed stage
sequence is a prefix of `(Waiting, Loading, Racing, Finishing)*` with no
transition skipped". -/
def stageStepOk (a b : RaceStage) : Prop := b = a ∨ b = nextStage a

instance : DecidableRel stageStepOk := fun a b => by
  unfold stageStepOk
  exact inferInstance

/-- Adjacency discipline of a stage trace starting from `s`. -/
def StageTraceOk : RaceStage → List RaceStage → Prop
  | _, [] => True
  | s, t :: rest => stageStepOk s t ∧ StageTraceOk t rest

instance : ∀ s l, Decidable (StageTraceOk s l)
  | _, [] => .isTrue trivial
  | _, t :: rest =>
    have : Decidable (StageTraceOk t rest) := instDecidableStageTraceOk t rest
    instDecidableAnd

/-- The last stage of a trace segment, defaulting to the starting stage. -/
def lastStage (s : RaceStage) (l : List RaceStage) : RaceStage := l.getLastD s

theorem stageTraceOk_append (s : RaceStage) (l1 l2 : List RaceStage) :
    StageTraceOk s (l1 ++ l2) ↔ StageTraceOk s l1 ∧ StageTraceOk (lastStage s l1) l2 := by
  induction l1 generalizing s with
  | nil => simp [StageTraceOk, lastStage]
  | cons t rest ih =>
    simp only [List.cons_append, List.append_eq, StageTraceOk, ih t, lastStage,
      List.getLastD_cons, and_assoc]

/-- C2 counterexample: a second `HandleStartRace` while the instance is
`Racing` (nothing in the handler guards the stage) assigns `Loading`, an
observed `Racing → Loading` transition outside the claimed cycle. -/
theorem C2_counterexample :
    ¬ StageTraceOk RaceStage.Waiting
      (observedStages (RaceStage.Waiting, [])
        [RaceEvent.startRace 1, RaceEvent.tick true false false, RaceEvent.startRace 1]) := by
  decide

/-- A tick phase produces either no assignment and an unchanged stage, or a
single assignment of the successor stage. -/
def PhaseShape (s s' : RaceStage) (o : List RaceStage) : Prop :=
  (o = [] ∧ s' = s) ∨ (o = [s'] ∧ s' = nextStage s)

theorem phaseShape_traceOk (s s' : RaceStage) (o : List RaceStage)
    (h : PhaseShape s s' o) : StageTraceOk s o ∧ lastStage s o = s' := by
  rcases h with ⟨ho, hs⟩ | ⟨ho, hs⟩
  · subst ho
    exact ⟨trivial, hs.symm⟩
  · subst ho
    exact ⟨⟨Or.inr hs, trivial⟩, rfl⟩

theorem tickLoading_shape (stage : RaceStage) (racers : List RacerState) (lt : Bool) :
    PhaseShape stage (tickLoading stage racers lt).1 (tickLoading stage racers lt).2.2 := by
  unfold tickLoading
  split
  · rename_i h
    exact Or.inr ⟨rfl, by rw [h.1]; rfl⟩
  · exact Or.inl ⟨rfl, rfl⟩

theorem tickRacing_shape (stage : RaceStage) (racers : List RacerState) (rt : Bool) :
    PhaseShape stage (tickRacing stage racers rt).1 (tickRacing stage racers rt).2 := by
  unfold tickRacing
  split
  · rename_i h
    exact Or.inr ⟨rfl, by rw [h.1]; rfl⟩
  · exact Or.inl ⟨rfl, rfl⟩

theorem tickFinishing_shape (stage : RaceStage) (racers : List RacerState) (ft : Bool) :
    PhaseShape stage (tickFinishing stage racers ft).1 (tickFinishing stage racers ft).2 := by
  unfold tickFinishing
  split
  · rename_i h
    exact Or.inr ⟨rfl, by rw [h.1]; rfl⟩
  · exact Or.inl ⟨rfl, rfl⟩

theorem lastStage_append (a : RaceStage) (x y : List RaceStage) :
    lastStage a (x ++ y) = lastStage (lastStage a x) y := by
  unfold lastStage
  induction x generalizing a with
  | nil => rfl
  | cons b xs ih =>
    rw [List.cons_append, List.getLastD_cons, List.getLastD_cons, ih b]

theorem tickInstance_traceOk (stage : RaceStage) (racers : List RacerState)
    (lt rt ft : Bool) :
    StageTraceOk stage (tickInstance stage racers lt rt ft).2.2 ∧
    lastStage stage (tickInstance stage racers lt rt ft).2.2 =
      (tickInstance stage racers lt rt ft).1 := by
  obtain ⟨hI, hIlast⟩ := phaseShape_traceOk _ _ _ (tickLoading_shape stage racers lt)
  obtain ⟨hR, hRlast⟩ := phaseShape_traceOk _ _ _
    (tickRacing_shape (tickLoading stage racers lt).1 (tickLoading stage racers lt).2.1 rt)
  obtain ⟨hF, hFlast⟩ := phaseShape_traceOk _ _ _
    (tickFinishing_shape
      (tickRacing (tickLoading stage racers lt).1 (tickLoading stage racers lt).2.1 rt).1
      (tickLoading stage racers lt).2.1 ft)
  show StageTraceOk stage ((tickLoading stage racers lt).2.2 ++
      ((tickRacing (tickLoading stage racers lt).1 (tickLoading stage racers lt).2.1 rt).2 ++
        (tickFinishing
          (tickRacing (tickLoading stage racers lt).1 (tickLoading stage racers lt).2.1 rt).1
          (tickLoading stage racers lt).2.1 ft).2)) ∧
    lastStage stage ((tickLoading stage racers lt).2.2 ++
      ((tickRacing (tickLoading stage racers lt).1 (tickLoading stage racers lt).2.1 rt).2 ++
        (tickFinishing
          (tickRacing (tickLoading stage racers lt).1 (tickLoading stage racers lt).2.1 rt).1
          (tickLoading stage racers lt).2.1 ft).2)) =
      (tickFinishing
        (tickRacing (tickLoading stage racers lt).1 (tickLoading stage racers lt).2.1 rt).1
        (tickLoading stage racers lt).2.1 ft).1
  rw [stageTraceOk_append, stageTraceOk_append, hIlast, hRlast, lastStage_append,
    lastStage_append, hIlast, hRlast, hFlast]
  exact ⟨⟨hI, hR, hF⟩, rfl⟩

/-- Discipline under which the amended C2 claim holds: every `startRace`
event is issued while the instance is `Waiting`. -/
def startRaceOnlyInWaiting : RaceStage × List RacerState → List RaceEvent → Bool
  | _, [] => true
  | st, e :: es =>
    (match e with
     | .startRace _ => st.1 == RaceStage.Waiting
     | _ => true) && startRaceOnlyInWaiting (applyRaceEvent st e).1 es

theorem raceTrace_ok_from (events : List RaceEvent) :
    ∀ st, startRaceOnlyInWaiting st events = true →
      StageTraceOk st.1 (observedStages st events) := by
  induction events with
  | nil => intro st _; trivial
  | cons e es ih =>
    intro st h
    simp only [startRaceOnlyInWaiting, Bool.and_eq_true] at h
    have hrest := ih (applyRaceEvent st e).1 h.2
    rw [observedStages, stageTraceOk_append]
    cases e with
    | startRace n =>
      have hw : st.1 = RaceStage.Waiting := by
        have := h.1
        simpa using this
      refine ⟨⟨?_, trivial⟩, ?_⟩
      · rw [hw]; exact Or.inr rfl
      · exact hrest
    | tick lt rt ft =>
      obtain ⟨h1, h2⟩ := tickInstance_traceOk st.1 st.2 lt rt ft
      refine ⟨h1, ?_⟩
      have h3 : lastStage st.1 (applyRaceEvent st (RaceEvent.tick lt rt ft)).2 =
          (applyRaceEvent st (RaceEvent.tick lt rt ft)).1.1 := h2
      rw [h3]
      exact hrest
    | setRacerState i s =>
      exact ⟨trivial, hrest⟩

/-- C2 (amended): provided `HandleStartRace` is only invoked while the
instance is `Waiting` (the handler itself does not guard the stage), the
observed stage sequence takes only the transitions `Waiting → Loading`
(StartRace), `Loading → Racing`, `Racing → Finishing` and
`Finishing → Waiting` (Tick), never skipping a stage. -/
theorem C2_stage_machine (events : List RaceEvent)
    (h : startRaceOnlyInWaiting (RaceStage.Waiting, []) events = true) :
    StageTraceOk RaceStage.Waiting (raceStageTrace events).tail ∧
    List.Chain' stageStepOk (raceStageTrace events) := by
  have hmain := raceTrace_ok_from events (RaceStage.Waiting, []) h
  constructor
  · exact hmain
  · rw [raceStageTrace]
    have : ∀ s l, StageTraceOk s l → List.Chain' stageStepOk (s :: l) := by
      intro s l
      induction l generalizing s with
      | nil => intro _; simp
      | cons t rest ih =>
        intro hh
        exact List.chain'_cons.mpr ⟨hh.1, ih t hh.2⟩
    exact this _ _ hmain

/-- Witness: the amended C2 theorem applied to a full regular race round:
start, loading completed, racer finishes, results settle. -/
theorem C2_stage_machine_witness :
    List.Chain' stageStepOk
      (raceStageTrace
        [RaceEvent.startRace 1, RaceEvent.setRacerState 0 RacerState.Racing,
          RaceEvent.tick false false false, RaceEvent.setRacerState 0 RacerState.Finishing,
          RaceEvent.tick false false false, RaceEvent.tick false false false]) :=
  (C2_stage_machine _ (by decide)).2


end AliciaSpec
